import Mathlib

/-!
Shallow embedding of `src/Code/Common/itkEvolveLevelSet.h` (class
`itk::EvolveLevelSet<TLevelSet>`), the double-buffered iteration harness for
level-set evolution.

Modelling conventions:
* C++ `double` pixel and parameter values are modelled as `ℚ` (exact reals:
  the spec treats them as reals; no clamping or arithmetic in the claims
  depends on floating-point rounding).
* Smart pointers (`LevelSetPointer`, `NodeContainerPointer`) are modelled as
  `Option Ptr` with `Ptr := Nat`: `none` is the null pointer, and the data a
  pointer refers to lives in an explicit heap (`bufHeap`, `bandHeap`) inside
  `MachineState`.  Pointer equality is reference identity.
* Method bodies that are inline in the header are translated from the header.
  Bodies that live in `itkEvolveLevelSet.txx`, in `itkMacro.h` (the
  `itkSetClampMacro` / `itkSetMacro` / `itkBooleanMacro` / `itkGetMacro`
  expansions) or in a concrete subclass (the pure virtual `GenerateData`)
  are not under `src/`; those definitions carry a doc comment starting
  `Modelled from the spec:` and follow the spec's description.
-/

/-- Pixel type of the level-set image (`PixelType`, a C++ `double`). -/
abbrev PixelType := ℚ

/-- Contents of one level-set image buffer: the scalar field values over the
allocated region, flattened in index order. -/
abbrev LevelSetField := List PixelType

/-- A `LevelSetNode`: one grid point of interest, carrying an N-dimensional
integer index and a scalar value (spec §3 "Node"). -/
structure LevelSetNode where
  index : List Int
  value : PixelType
deriving DecidableEq, Repr

/-- `NodeContainer`: a `VectorContainer` of level-set nodes, modelled as an
ordered list. -/
abbrev NodeContainer := List LevelSetNode

/-- Model of a heap address for reference-identity reasoning. -/
abbrev Ptr := Nat

/-- The private state of `itk::EvolveLevelSet` (header lines 235-243).
`m_InputNarrowBand` is a `NodeContainerPointer` (a smart pointer, possibly
null); `m_InputBuffer` / `m_OutputBuffer` are `LevelSetPointer`s. -/
structure EvolveLevelSet where
  m_InputNarrowBand : Option Ptr
  m_TimeStepSize : ℚ
  m_NarrowBanding : Bool
  m_NarrowBandwidth : ℚ
  m_NumberOfIterations : Nat
  m_InputBuffer : Option Ptr
  m_OutputBuffer : Option Ptr

/-- The object together with the data its pointers refer to: `bufHeap` maps a
level-set image pointer to the buffer contents, `bandHeap` maps a node
container pointer to the node sequence. -/
structure MachineState where
  obj : EvolveLevelSet
  bufHeap : Ptr → LevelSetField
  bandHeap : Ptr → NodeContainer

/-- Modelled from the spec: `SetTimeStepSize` is generated by
`itkSetClampMacro( TimeStepSize, double, 0.0, NumericTraits<double>::max())`
(header lines 100-101); the macro body is in `itkMacro.h`, which is not under
`src/`.  Per the spec, an assignment below 0 is raised to 0 at the moment of
assignment and there is no upper clamp other than the representable maximum
(absent in the exact-real model). -/
def SetTimeStepSize (s : EvolveLevelSet) (v : ℚ) : EvolveLevelSet :=
  { s with m_TimeStepSize := if v < 0 then 0 else v }

/-- `GetTimeStepSize` (header line 106, `itkGetConstMacro`): returns
`m_TimeStepSize`. -/
def GetTimeStepSize (s : EvolveLevelSet) : ℚ :=
  s.m_TimeStepSize

/-- Modelled from the spec: `SetNarrowBandwidth` is generated by
`itkSetClampMacro( NarrowBandwidth, double, 0.0, NumericTraits<double>::max())`
(header lines 127-128); the macro body is in `itkMacro.h`, not under `src/`.
Same clamping as `SetTimeStepSize`. -/
def SetNarrowBandwidth (s : EvolveLevelSet) (v : ℚ) : EvolveLevelSet :=
  { s with m_NarrowBandwidth := if v < 0 then 0 else v }

/-- `GetNarrowBandwidth` (header line 133): returns `m_NarrowBandwidth`. -/
def GetNarrowBandwidth (s : EvolveLevelSet) : ℚ :=
  s.m_NarrowBandwidth

/-- Modelled from the spec: `SetNarrowBanding` is generated by
`itkSetMacro( NarrowBanding, bool )` (header line 116); the macro body is in
`itkMacro.h`, not under `src/`.  It stores the flag and touches no other
member. -/
def SetNarrowBanding (s : EvolveLevelSet) (b : Bool) : EvolveLevelSet :=
  { s with m_NarrowBanding := b }

/-- Modelled from the spec: `NarrowBandingOn` from
`itkBooleanMacro( NarrowBanding )` (header line 117): sets the flag true. -/
def NarrowBandingOn (s : EvolveLevelSet) : EvolveLevelSet :=
  SetNarrowBanding s true

/-- Modelled from the spec: `NarrowBandingOff` from
`itkBooleanMacro( NarrowBanding )` (header line 117): sets the flag false. -/
def NarrowBandingOff (s : EvolveLevelSet) : EvolveLevelSet :=
  SetNarrowBanding s false

/-- `GetNarrowBanding` (header line 122): returns `m_NarrowBanding`. -/
def GetNarrowBanding (s : EvolveLevelSet) : Bool :=
  s.m_NarrowBanding

/-- Modelled from the spec: `SetNumberOfIterations` from
`itkSetMacro( NumberOfIterations, unsigned int )` (header line 160); the macro
body is in `itkMacro.h`, not under `src/`. -/
def SetNumberOfIterations (s : EvolveLevelSet) (n : Nat) : EvolveLevelSet :=
  { s with m_NumberOfIterations := n }

/-- `GetNumberOfIterations` (header line 165). -/
def GetNumberOfIterations (s : EvolveLevelSet) : Nat :=
  s.m_NumberOfIterations

/-- Modelled from the spec: `SetInputNarrowBand( NodeContainer *ptr )` is
declared at header line 147 with its body in `itkEvolveLevelSet.txx`, not
under `src/`.  Per spec §4.2 it installs the caller-supplied container by
shallow reference: the stored pointer is the argument. -/
def SetInputNarrowBand (s : EvolveLevelSet) (ptr : Option Ptr) : EvolveLevelSet :=
  { s with m_InputNarrowBand := ptr }

/-- `GetInputNarrowBand` (header lines 152-155, inline): returns
`m_InputNarrowBand` — the stored pointer itself, shallow. -/
def GetInputNarrowBand (s : EvolveLevelSet) : Option Ptr :=
  s.m_InputNarrowBand

/-- `GetNarrowBandSize` (header lines 138-142, inline):
`if( !m_NarrowBanding ) return 0; return m_NarrowBand->Size();`.
The identifier `m_NarrowBand` in the header body is not among the declared
data members; the only node container the object holds is `m_InputNarrowBand`
(line 236), which `SetInputNarrowBand` / `GetInputNarrowBand` manage, so the
dereferenced container is that member.  The C++ `->Size()` dereference of a
possibly-null smart pointer is totalized with `Option.map`: a null pointer
yields `none` (the undefined-behaviour branch) instead of a value. -/
def GetNarrowBandSize (m : MachineState) : Option Int :=
  if !m.obj.m_NarrowBanding then some 0
  else m.obj.m_InputNarrowBand.map (fun p => ((m.bandHeap p).length : Int))

/-- `GetInputBuffer` (header lines 201-202, inline): returns the internal
input buffer pointer `m_InputBuffer`. -/
def GetInputBuffer (m : MachineState) : Option Ptr :=
  m.obj.m_InputBuffer

/-- `GetOutputBuffer` (header lines 207-208, inline): returns the internal
output buffer pointer `m_OutputBuffer`. -/
def GetOutputBuffer (m : MachineState) : Option Ptr :=
  m.obj.m_OutputBuffer

/-- Modelled from the spec: `SwapBuffers` is declared at header line 184 with
its body in `itkEvolveLevelSet.txx`, not under `src/`.  Per spec §4.1 `swap()`
exchanges the roles of input and output buffer by pointer exchange, not data
copy: only the two pointers move, both heaps are untouched. -/
def SwapBuffersM (m : MachineState) : MachineState :=
  { m with obj := { m.obj with
      m_InputBuffer := m.obj.m_OutputBuffer
      m_OutputBuffer := m.obj.m_InputBuffer } }

/-- Modelled from the spec: one invocation of the abstract per-iteration
update step (spec §4.3 step 4a, the pure virtual extension point invoked by a
subclass `GenerateData`, not under `src/`): it reads the current input buffer
and writes the result at the output buffer's address, touching nothing else.
If either buffer pointer is null nothing can be read or written. -/
def ApplyUpdateStep (u : LevelSetField → LevelSetField) (m : MachineState) :
    MachineState :=
  match m.obj.m_InputBuffer, m.obj.m_OutputBuffer with
  | some pi, some po =>
      { m with bufHeap := Function.update m.bufHeap po (u (m.bufHeap pi)) }
  | _, _ => m

/-- Modelled from the spec: the iteration loop of §4.3 step 4 run on the full
machine state — for each of `n` iterations invoke the update step, and swap
buffers unless this was the final iteration. -/
def HarnessIterate (u : LevelSetField → LevelSetField) :
    Nat → MachineState → MachineState
  | 0, m => m
  | n + 1, m =>
      let m1 := ApplyUpdateStep u m
      if n = 0 then m1 else HarnessIterate u n (SwapBuffersM m1)

/-- The two internal buffers by value: the contents stored at the input-buffer
pointer and at the output-buffer pointer.  This is the data refinement of the
pointer-level machine for runs in which the two pointers are distinct and
non-null. -/
structure BufferPair where
  inBuf : LevelSetField
  outBuf : LevelSetField
deriving DecidableEq, Repr

/-- `SwapBuffers` on the value level: the content playing the input role and
the content playing the output role exchange roles. -/
def SwapBuffersP (b : BufferPair) : BufferPair :=
  ⟨b.outBuf, b.inBuf⟩

/-- Modelled from the spec: `CopyInputToInputBuffer` (declared at header line
190, body in `itkEvolveLevelSet.txx`, not under `src/`) deep-copies the
external input field into the internal input buffer (spec §4.1).  The freshly
allocated output buffer starts with the same contents: spec §4.3's edge case
states that for a zero-iteration run "the copy-in output equals the copy-out
input", i.e. after copy-in the buffer the run would copy out already holds the
input field. -/
def CopyInputToInputBuffer (input : LevelSetField) : BufferPair :=
  ⟨input, input⟩

/-- Modelled from the spec: `CopyOutputBufferToOutput` (declared at header
line 196, body in `itkEvolveLevelSet.txx`, not under `src/`) deep-copies the
internal output buffer into the external output field (spec §4.1). -/
def CopyOutputBufferToOutput (b : BufferPair) : LevelSetField :=
  b.outBuf

/-- Modelled from the spec: the iteration loop of §4.3 step 4 on the value
level.  For `i` in `0 .. n-1`: write `u(inBuf)` into the output buffer; then
swap, unless `i` is the final iteration. -/
def IterLoop (u : LevelSetField → LevelSetField) :
    Nat → BufferPair → BufferPair
  | 0, b => b
  | n + 1, b =>
      let b1 : BufferPair := { b with outBuf := u b.inBuf }
      if n = 0 then b1 else IterLoop u n (SwapBuffersP b1)

/-- Modelled from the spec: a whole `GenerateData` run (§4.3; `GenerateData`
is pure virtual at header line 213, supplied by a concrete subclass not under
`src/`) with an infallible update step `u`: copy the external input in, run
`n` iterations with inter-iteration swaps, copy the output buffer out. -/
def GenerateDataRun (u : LevelSetField → LevelSetField) (n : Nat)
    (input : LevelSetField) : LevelSetField :=
  CopyOutputBufferToOutput (IterLoop u n (CopyInputToInputBuffer input))

/-- Modelled from the spec: the iteration loop with a fallible update step
(spec §4.3 failure semantics / §7 `UpdateStepFailure`).  `u` returns `none`
to report failure; the run then aborts immediately, and `Except.error`
carries the internal buffers exactly as they stood when the failing step was
invoked (the last fully-computed state, accessible for diagnostics). -/
def IterLoopE (u : LevelSetField → Option LevelSetField) :
    Nat → BufferPair → Except BufferPair BufferPair
  | 0, b => Except.ok b
  | n + 1, b =>
      match u b.inBuf with
      | none => Except.error b
      | some o =>
          let b1 : BufferPair := { b with outBuf := o }
          if n = 0 then Except.ok b1 else IterLoopE u n (SwapBuffersP b1)

/-- Modelled from the spec: a whole `GenerateData` run with a fallible update
step.  `extOutput` is the external output field before the run.  On success
the output buffer is copied out; on `UpdateStepFailure` the run aborts with
no partial copy-out, so the external output field keeps its prior contents.
The second component returns the final internal buffers (the last
fully-computed state remains accessible either way). -/
def GenerateDataRunE (u : LevelSetField → Option LevelSetField) (n : Nat)
    (input extOutput : LevelSetField) : LevelSetField × BufferPair :=
  match IterLoopE u n (CopyInputToInputBuffer input) with
  | Except.ok b => (CopyOutputBufferToOutput b, b)
  | Except.error b => (extOutput, b)

/-- An N-dimensional image region: an index origin and a size per dimension
(spec §3 / glossary "Region"). -/
structure ImageRegion where
  index : List Int
  size : List Nat
deriving DecidableEq, Repr

/-- Componentwise containment of one region inside another: same
dimensionality, origin no earlier and end no later in every dimension. -/
def InsideDims : List Int → List Nat → List Int → List Nat → Bool
  | [], [], [], [] => true
  | i1 :: is1, s1 :: ss1, i2 :: is2, s2 :: ss2 =>
      decide (i2 ≤ i1) && decide (i1 + (s1 : Int) ≤ i2 + (s2 : Int)) &&
        InsideDims is1 ss1 is2 ss2
  | _, _, _, _ => false

/-- `r` lies inside `s` as a sub-region. -/
def ImageRegion.isInside (r s : ImageRegion) : Bool :=
  InsideDims r.index r.size s.index s.size

/-- Modelled from the spec: `GenerateInputRequestedRegion` (declared at header
line 223, body in `itkEvolveLevelSet.txx`, not under `src/`).  Per the header
comment and spec §4.4, the default behaviour requests the largest possible
region of the input for any requested output region. -/
def GenerateInputRequestedRegion (largestPossibleRegion : ImageRegion)
    (requestedOutputRegion : ImageRegion) : ImageRegion :=
  largestPossibleRegion

/-- Modelled from the spec: `EnlargeOutputRequestedRegion` (declared at header
line 233, body in `itkEvolveLevelSet.txx`, not under `src/`).  Per the header
comment and spec §4.4, the default behaviour enlarges any requested output
region to the largest possible region. -/
def EnlargeOutputRequestedRegion (largestPossibleRegion : ImageRegion)
    (requestedRegion : ImageRegion) : ImageRegion :=
  largestPossibleRegion

/-- Modelled from the spec: the region over which `AllocateBuffers` allocates
the internal buffers (§4.3 step 2) — the output region after enlargement by
the region negotiation adapter. -/
def BufferAllocationRegion (largestPossibleRegion : ImageRegion)
    (requestedRegion : ImageRegion) : ImageRegion :=
  EnlargeOutputRequestedRegion largestPossibleRegion requestedRegion

/-- A concrete object state used by the closed witness theorems: narrow
banding on, a one-node narrow band installed at address 0, buffers at
addresses 0 and 1. -/
def sampleObj : EvolveLevelSet :=
  { m_InputNarrowBand := some 0
    m_TimeStepSize := 1 / 2
    m_NarrowBanding := true
    m_NarrowBandwidth := 12
    m_NumberOfIterations := 10
    m_InputBuffer := some 0
    m_OutputBuffer := some 1 }

/-- A concrete machine state for the witness theorems: `sampleObj` with a
one-node container at band address 0 and empty buffers. -/
def sampleState : MachineState :=
  { obj := sampleObj
    bufHeap := fun _ => []
    bandHeap := fun _ => [⟨[3, 4], 1⟩] }

/-- The clamp used by the `itkSetClampMacro`-generated setters, written as a
`max`. -/
theorem clamp_below_zero_eq_max (v : ℚ) : (if v < 0 then 0 else v) = max 0 v := by
  rcases lt_or_le v 0 with h | h
  · rw [if_pos h, max_eq_left h.le]
  · rw [if_neg (not_lt.mpr h), max_eq_right h]

/-- C1: For every object state, every real value `v` assigned via
`SetTimeStepSize` and every real value `w` assigned via `SetNarrowBandwidth`,
the value read back by the corresponding getter equals `max 0` of the
assigned value: assignments below 0 are raised to 0 at the moment of
assignment, and there is no upper clamp in the exact-real model. -/
theorem setClamp_readback_eq_max (s : EvolveLevelSet) (v w : ℚ) :
    GetTimeStepSize (SetTimeStepSize s v) = max 0 v ∧
    GetNarrowBandwidth (SetNarrowBandwidth s w) = max 0 w :=
  ⟨clamp_below_zero_eq_max v, clamp_below_zero_eq_max w⟩

/-- C2: Whenever the `NarrowBanding` flag is false, `GetNarrowBandSize`
returns 0, regardless of the installed input narrow band (the state `m` is
arbitrary, in particular its `m_InputNarrowBand` and `bandHeap`). -/
theorem narrowBanding_off_size_zero (m : MachineState)
    (h : m.obj.m_NarrowBanding = false) :
    GetNarrowBandSize m = some 0 := by
  simp [GetNarrowBandSize, h]

/-- Witness for `narrowBanding_off_size_zero`: a state with a one-node band
installed but the flag turned off still reports size 0. -/
theorem narrowBanding_off_size_zero_witness :
    GetNarrowBandSize { sampleState with obj := NarrowBandingOff sampleState.obj }
      = some 0 :=
  narrowBanding_off_size_zero
    { sampleState with obj := NarrowBandingOff sampleState.obj } rfl

/-- C4: `SwapBuffers` is a pure role exchange: the pointer returned by
`GetOutputBuffer` before the swap is exactly (reference identity) the pointer
returned by `GetInputBuffer` after the swap and vice versa, and the swap
mutates no buffer data (both heaps are unchanged). -/
theorem swapBuffers_pure_role_exchange (m : MachineState) :
    GetInputBuffer (SwapBuffersM m) = GetOutputBuffer m ∧
    GetOutputBuffer (SwapBuffersM m) = GetInputBuffer m ∧
    (SwapBuffersM m).bufHeap = m.bufHeap ∧
    (SwapBuffersM m).bandHeap = m.bandHeap :=
  ⟨rfl, rfl, rfl, rfl⟩

/-- C5: A run with `numberOfIterations = 0` is the identity on field
contents for every input field and every update step `u` (the step is never
invoked, so the result does not depend on it): the copy-in followed by the
copy-out returns the input field unchanged. -/
theorem zero_iterations_identity_run (u : LevelSetField → LevelSetField)
    (input : LevelSetField) :
    GenerateDataRun u 0 input = input :=
  rfl

/-- C9: When the `NarrowBanding` flag is set, `GetNarrowBandSize`
unconditionally dereferences the installed band container: with no container
installed the null dereference occurs (the totalized embedding returns
`none`), and whenever a container is installed the dereference succeeds and
yields its size, so the error branch is unreachable exactly when a band is
present. -/
theorem narrowBanding_size_dereferences_band (m : MachineState)
    (h : m.obj.m_NarrowBanding = true) :
    (m.obj.m_InputNarrowBand = none → GetNarrowBandSize m = none) ∧
    (∀ p : Ptr, m.obj.m_InputNarrowBand = some p →
      GetNarrowBandSize m = some ((m.bandHeap p).length : Int)) := by
  constructor
  · intro hnone
    simp [GetNarrowBandSize, h, hnone]
  · intro p hp
    simp [GetNarrowBandSize, h, hp]

/-- Witness for `narrowBanding_size_dereferences_band`: with the flag on and
no band installed, the size query hits the null dereference (`none`). -/
theorem narrowBanding_size_dereferences_band_witness :
    GetNarrowBandSize
      { sampleState with obj := SetInputNarrowBand sampleState.obj none }
      = none :=
  (narrowBanding_size_dereferences_band
    { sampleState with obj := SetInputNarrowBand sampleState.obj none } rfl).1 rfl

/-- C10: Setting or toggling the `NarrowBanding` flag modifies only that
flag: the pointer read back by `GetInputNarrowBand` is exactly the pointer
previously installed by `SetInputNarrowBand`, before and after any of the
three flag operations, and `m_TimeStepSize`, `m_NarrowBandwidth`,
`m_NumberOfIterations` (as well as the buffer pointers and the band pointer)
are unchanged by `SetNarrowBanding`; `NarrowBandingOn` / `NarrowBandingOff`
are exactly `SetNarrowBanding` with `true` / `false`. -/
theorem narrowBanding_flag_frame (s : EvolveLevelSet) (p : Option Ptr) (b : Bool) :
    (GetInputNarrowBand (SetInputNarrowBand s p) = p ∧
     GetInputNarrowBand (SetNarrowBanding (SetInputNarrowBand s p) b) = p ∧
     GetInputNarrowBand (NarrowBandingOn (SetInputNarrowBand s p)) = p ∧
     GetInputNarrowBand (NarrowBandingOff (SetInputNarrowBand s p)) = p) ∧
    ((SetNarrowBanding s b).m_TimeStepSize = s.m_TimeStepSize ∧
     (SetNarrowBanding s b).m_NarrowBandwidth = s.m_NarrowBandwidth ∧
     (SetNarrowBanding s b).m_NumberOfIterations = s.m_NumberOfIterations ∧
     (SetNarrowBanding s b).m_InputNarrowBand = s.m_InputNarrowBand ∧
     (SetNarrowBanding s b).m_InputBuffer = s.m_InputBuffer ∧
     (SetNarrowBanding s b).m_OutputBuffer = s.m_OutputBuffer) ∧
    (NarrowBandingOn s = SetNarrowBanding s true ∧
     NarrowBandingOff s = SetNarrowBanding s false) :=
  ⟨⟨rfl, rfl, rfl, rfl⟩, ⟨rfl, rfl, rfl, rfl, rfl, rfl⟩, rfl, rfl⟩

/-- The update step leaves the object pointers and parameters unchanged: it
only writes buffer data. -/
theorem applyUpdateStep_obj (u : LevelSetField → LevelSetField)
    (m : MachineState) : (ApplyUpdateStep u m).obj = m.obj := by
  unfold ApplyUpdateStep
  split <;> rfl

/-- The update step never touches the node-container heap. -/
theorem applyUpdateStep_bandHeap (u : LevelSetField → LevelSetField)
    (m : MachineState) : (ApplyUpdateStep u m).bandHeap = m.bandHeap := by
  unfold ApplyUpdateStep
  split <;> rfl

/-- Running any number of harness iterations preserves the narrow-banding
flag, the installed band pointer and the band contents: the harness only
stores and reports the band. -/
theorem harnessIterate_preserves_band (u : LevelSetField → LevelSetField) :
    ∀ (n : Nat) (m : MachineState),
    (HarnessIterate u n m).obj.m_NarrowBanding = m.obj.m_NarrowBanding ∧
    (HarnessIterate u n m).obj.m_InputNarrowBand = m.obj.m_InputNarrowBand ∧
    (HarnessIterate u n m).bandHeap = m.bandHeap := by
  intro n
  induction n with
  | zero => exact fun m => ⟨rfl, rfl, rfl⟩
  | succ k ih =>
      intro m
      by_cases hk : k = 0
      · subst hk
        simp [HarnessIterate, applyUpdateStep_obj, applyUpdateStep_bandHeap]
      · obtain ⟨h1, h2, h3⟩ := ih (SwapBuffersM (ApplyUpdateStep u m))
        simp only [HarnessIterate, hk, if_false]
        refine ⟨?_, ?_, ?_⟩
        · rw [h1]
          show (ApplyUpdateStep u m).obj.m_NarrowBanding = m.obj.m_NarrowBanding
          rw [applyUpdateStep_obj]
        · rw [h2]
          show (ApplyUpdateStep u m).obj.m_InputNarrowBand = m.obj.m_InputNarrowBand
          rw [applyUpdateStep_obj]
        · rw [h3]
          show (ApplyUpdateStep u m).bandHeap = m.bandHeap
          rw [applyUpdateStep_bandHeap]

/-- C3: With the `NarrowBanding` flag true and an input narrow band of size
`K` installed, `GetNarrowBandSize` returns `K` after any number of harness
iterations with any update step (band membership is not altered by the
harness itself): the count reflects the working set currently held. -/
theorem band_size_stable_over_iterations (m : MachineState) (p : Ptr) (K : Nat)
    (u : LevelSetField → LevelSetField) (n : Nat)
    (hflag : m.obj.m_NarrowBanding = true)
    (hband : m.obj.m_InputNarrowBand = some p)
    (hK : (m.bandHeap p).length = K) :
    GetNarrowBandSize (HarnessIterate u n m) = some (K : Int) := by
  obtain ⟨h1, h2, h3⟩ := harnessIterate_preserves_band u n m
  simp [GetNarrowBandSize, h1, h2, h3, hflag, hband, hK]

/-- Witness for `band_size_stable_over_iterations`: a one-node band stays of
size 1 after three iterations of the identity update step. -/
theorem band_size_stable_over_iterations_witness :
    GetNarrowBandSize (HarnessIterate id 3 sampleState) = some 1 :=
  band_size_stable_over_iterations sampleState 0 1 id 3 rfl rfl rfl

/-- After `n + 1` loop iterations the output buffer holds the `(n+1)`-fold
application of the update step to the initial input-buffer contents. -/
theorem iterLoop_outBuf (u : LevelSetField → LevelSetField) :
    ∀ (n : Nat) (b : BufferPair),
    (IterLoop u (n + 1) b).outBuf = u^[n + 1] b.inBuf := by
  intro n
  induction n with
  | zero =>
      intro b
      simp [IterLoop]
  | succ k ih =>
      intro b
      have hne : (k + 1 : Nat) ≠ 0 := Nat.succ_ne_zero k
      simp only [IterLoop, hne, if_false]
      calc (IterLoop u (k + 1)
              (SwapBuffersP { b with outBuf := u b.inBuf })).outBuf
          = u^[k + 1] (SwapBuffersP { b with outBuf := u b.inBuf }).inBuf :=
            ih _
        _ = u^[k + 1] (u b.inBuf) := rfl
        _ = u^[k + 2] b.inBuf := (Function.iterate_succ_apply u (k + 1) b.inBuf).symm

/-- A full run with an infallible update step computes the `n`-fold
application of the step to the input field: the double-buffered loop refines
direct iteration. -/
theorem generateDataRun_eq_iterate (u : LevelSetField → LevelSetField)
    (n : Nat) (input : LevelSetField) :
    GenerateDataRun u n input = u^[n] input := by
  cases n with
  | zero => rfl
  | succ k =>
      show (IterLoop u (k + 1) ⟨input, input⟩).outBuf = u^[k + 1] input
      exact iterLoop_outBuf u k ⟨input, input⟩

/-- C6: With the deterministic update step that adds `timeStepSize` to every
visited node, a run of `n` sequential iterations (swapping between
consecutive iterations, no swap after the last) produces at every point the
value `input + n * timeStepSize` computed directly. -/
theorem run_add_timestep_eq_direct (dt : ℚ) (n : Nat) (input : LevelSetField) :
    GenerateDataRun (fun f => f.map (fun x => x + dt)) n input
      = input.map (fun x => x + (n : ℚ) * dt) := by
  rw [generateDataRun_eq_iterate]
  induction n with
  | zero => simp
  | succ k ih =>
      rw [Function.iterate_succ_apply', ih, List.map_map]
      have hfun : ((fun x : ℚ => x + dt) ∘ (fun x : ℚ => x + (k : ℚ) * dt))
          = fun x : ℚ => x + ((k + 1 : Nat) : ℚ) * dt := by
        funext x
        simp only [Function.comp_apply]
        push_cast
        ring
      rw [hfun]

/-- C7: With the default (non-overridden) region negotiation, for every
requested output sub-region strictly smaller than the full available extent,
the required input region, the enlarged output region and hence the buffer
allocation region all cover the entire available extent. -/
theorem default_region_negotiation_full_extent (full req : ImageRegion)
    (hsub : req.isInside full = true) (hne : req ≠ full) :
    GenerateInputRequestedRegion full req = full ∧
    EnlargeOutputRequestedRegion full req = full ∧
    BufferAllocationRegion full req = full :=
  ⟨rfl, rfl, rfl⟩

/-- Witness for `default_region_negotiation_full_extent`: a 4×4 sub-region of
a 10×10 extent is enlarged to the whole extent in both directions. -/
theorem default_region_negotiation_full_extent_witness :
    GenerateInputRequestedRegion ⟨[0, 0], [10, 10]⟩ ⟨[2, 3], [4, 4]⟩
        = ⟨[0, 0], [10, 10]⟩ ∧
    EnlargeOutputRequestedRegion ⟨[0, 0], [10, 10]⟩ ⟨[2, 3], [4, 4]⟩
        = ⟨[0, 0], [10, 10]⟩ ∧
    BufferAllocationRegion ⟨[0, 0], [10, 10]⟩ ⟨[2, 3], [4, 4]⟩
        = ⟨[0, 0], [10, 10]⟩ :=
  default_region_negotiation_full_extent ⟨[0, 0], [10, 10]⟩ ⟨[2, 3], [4, 4]⟩
    (by decide) (by decide)

/-- If the fallible update step reproduces the trajectory of `f` for the
first `k` iterations and fails at iteration `k < n`, the loop aborts with the
buffers as they stood at the failing invocation: the input buffer holds the
last fully-computed state `f^[k]` of the initial contents. -/
theorem iterLoopE_abort (u : LevelSetField → Option LevelSetField)
    (f : LevelSetField → LevelSetField) :
    ∀ (k n : Nat) (b : BufferPair), k < n →
    (∀ i < k, u (f^[i] b.inBuf) = some (f^[i + 1] b.inBuf)) →
    u (f^[k] b.inBuf) = none →
    ∃ o, IterLoopE u n b = Except.error ⟨f^[k] b.inBuf, o⟩ := by
  intro k
  induction k with
  | zero =>
      intro n b hkn hgood hfail
      rw [Function.iterate_zero_apply] at hfail
      cases n with
      | zero => omega
      | succ m =>
          refine ⟨b.outBuf, ?_⟩
          simp [IterLoopE, hfail]
  | succ k ih =>
      intro n b hkn hgood hfail
      cases n with
      | zero => omega
      | succ m =>
          have hm : 1 ≤ m := by omega
          have h0 : u b.inBuf = some (f b.inBuf) := by
            have := hgood 0 (Nat.succ_pos k)
            rwa [Function.iterate_zero_apply, Function.iterate_one] at this
          have hmne : m ≠ 0 := by omega
          have hstep : IterLoopE u (m + 1) b
              = IterLoopE u m ⟨f b.inBuf, b.inBuf⟩ := by
            simp [IterLoopE, h0, hmne, SwapBuffersP]
          obtain ⟨o, ho⟩ := ih m ⟨f b.inBuf, b.inBuf⟩ (by omega)
            (by
              intro i hi
              show u (f^[i] (f b.inBuf)) = some (f^[i + 1] (f b.inBuf))
              rw [← Function.iterate_succ_apply, ← Function.iterate_succ_apply]
              exact hgood (i + 1) (by omega))
            (by
              show u (f^[k] (f b.inBuf)) = none
              rwa [← Function.iterate_succ_apply])
          refine ⟨o, ?_⟩
          rw [hstep, ho, ← Function.iterate_succ_apply]

/-- C8: If the pluggable update step follows the deterministic behaviour `f`
for the first `k` iterations and reports failure at iteration
`k < numberOfIterations - 1`, the run aborts immediately: the external
output field keeps its prior contents (no partial copy-out), while the last
fully-computed internal state `f^[k] input` remains accessible in the input
buffer. -/
theorem update_failure_no_partial_output
    (u : LevelSetField → Option LevelSetField)
    (f : LevelSetField → LevelSetField) (n k : Nat)
    (input extOutput : LevelSetField)
    (hk : k < n - 1)
    (hgood : ∀ i < k, u (f^[i] input) = some (f^[i + 1] input))
    (hfail : u (f^[k] input) = none) :
    (GenerateDataRunE u n input extOutput).1 = extOutput ∧
    (GenerateDataRunE u n input extOutput).2.inBuf = f^[k] input := by
  have hkn : k < n := by omega
  obtain ⟨o, ho⟩ :=
    iterLoopE_abort u f k n ⟨input, input⟩ hkn hgood hfail
  constructor
  · simp [GenerateDataRunE, CopyInputToInputBuffer, ho]
  · simp [GenerateDataRunE, CopyInputToInputBuffer, ho]

/-- Witness for `update_failure_no_partial_output`: an update step that fails
at once, in a two-iteration run, leaves the external output field `[5]`
untouched and the input buffer holding the initial contents. -/
theorem update_failure_no_partial_output_witness :
    (GenerateDataRunE (fun _ => none) 2 [] [5]).1 = [5] ∧
    (GenerateDataRunE (fun _ => none) 2 [] [5]).2.inBuf = [] :=
  update_failure_no_partial_output (fun _ => none) id 2 0 [] [5]
    (by decide) (by omega) rfl
